import Mathlib

/-
Verification of the overwatch_spotify repository: a shallow embedding of
the state classifier (lib/overwatch_lib.py), the Spotify client
(lib/spotify_lib.py) and the action dispatcher (overwatch_spotify.py),
with theorems settling the specification claims.

Modelling conventions:
- Machine pixel values are `Nat` (GetPixel returns 0xBBGGRR); color
  channels are `Int` so that Python subtraction such as
  `color_ref[0] - distance` is embedded without truncation.
- Screen access (`windll.gdi32.GetPixel`) is external: classifier
  functions take a sampler `g : Nat × Nat → Nat` in place of the global
  device handle.
- Network access is external: client operations take the sequence of
  HTTP status codes `responses : Nat → Nat` (the code of the i-th
  request issued by the operation) and return, besides the new client
  state, the list of observable network events (requests and sleeps)
  and the Python exception escaping the call, if any (`Option PyExc`).
- Exceptions are values of `PyExc`; a result component
  `some e : Option PyExc` means the Python code raises `e`.
-/

set_option autoImplicit false
set_option linter.unusedVariables false

namespace OverwatchSpotify

/-! ## lib/overwatch_lib.py -/

/-- A color (R, G, B), as produced by `_pixel_to_rgb`. -/
abbrev Color := Int × Int × Int

/-- Embeds `_pixel_to_rgb`: convert a pixel in byte format 0xBBGGRR to
an (R, G, B) triple. -/
def _pixel_to_rgb (pixel : Nat) : Color :=
  (((pixel &&& 0xff : Nat) : Int),
   ((((pixel >>> 8) &&& 0xff : Nat) : Int),
    (((pixel >>> 16) &&& 0xff : Nat) : Int)))

/-- Embeds `_in_acceptable_range`: each channel of `color_to_check`
must lie strictly between `color_ref[i] - distance` and
`color_ref[i] + distance`. -/
def _in_acceptable_range (color_to_check color_ref : Color) (distance : Int) : Bool :=
  if color_ref.1 - distance < color_to_check.1 ∧ color_to_check.1 < color_ref.1 + distance then
    if color_ref.2.1 - distance < color_to_check.2.1 ∧ color_to_check.2.1 < color_ref.2.1 + distance then
      if color_ref.2.2 - distance < color_to_check.2.2 ∧ color_to_check.2.2 < color_ref.2.2 + distance then
        true
      else false
    else false
  else false

/-- Embeds `_is_greyscale`: every channel must satisfy
`greatest - tolerance <= c <= greatest + tolerance` where `greatest` is
the maximum channel value. -/
def _is_greyscale (color_to_check : Color) (tolerance : Int) : Bool :=
  let greatest := max color_to_check.1 (max color_to_check.2.1 color_to_check.2.2)
  let lo := greatest - tolerance
  let hi := greatest + tolerance
  decide (lo ≤ color_to_check.1 ∧ color_to_check.1 ≤ hi) &&
  decide (lo ≤ color_to_check.2.1 ∧ color_to_check.2.1 ≤ hi) &&
  decide (lo ≤ color_to_check.2.2 ∧ color_to_check.2.2 ≤ hi)

/-- Reference color `_COLORS` at key in_menu. -/
def color_in_menu : Color := (24, 113, 186)

/-- Reference color `_COLORS` at key character_select. -/
def color_character_select : Color := (255, 255, 255)

/-- Sample coordinates `_PIXELS` at key in_menu (2560x1440). -/
def pixels_in_menu : List (Nat × Nat) := [(1936, 49), (1936, 109), (1989, 49), (1976, 87)]

/-- Sample coordinates `_PIXELS` at key waiting (2560x1440). -/
def pixels_waiting : List (Nat × Nat) := [(2369, 1204), (2415, 1245), (2377, 1249), (2343, 1270)]

/-- Sample coordinates `_PIXELS` at key character_select (2560x1440). -/
def pixels_character_select : List (Nat × Nat) := [(2357, 250), (2402, 250), (2437, 250), (2483, 250)]

/-- The `errors` count computed inside `_in_menu`: number of sample
coordinates whose sampled color is not within distance 2 of the menu
reference color. -/
def in_menu_errors (g : Nat × Nat → Nat) : Nat :=
  (pixels_in_menu.filter
    (fun pair => ! _in_acceptable_range (_pixel_to_rgb (g pair)) color_in_menu 2)).length

/-- Embeds `_in_menu`: the rule matches when `errors < 2`. -/
def _in_menu (g : Nat × Nat → Nat) : Bool :=
  decide (in_menu_errors g < 2)

/-- The `errors` count computed inside `_waiting`: number of sample
coordinates whose sampled color is not greyscale with tolerance 12. -/
def waiting_errors (g : Nat × Nat → Nat) : Nat :=
  (pixels_waiting.filter
    (fun pair => ! _is_greyscale (_pixel_to_rgb (g pair)) 12)).length

/-- Embeds `_waiting`: the rule matches when `errors < 1`. -/
def _waiting (g : Nat × Nat → Nat) : Bool :=
  decide (waiting_errors g < 1)

/-- The `errors` count computed inside `_in_character_select`: number of
sample coordinates whose sampled color is not within distance 3 of
white. -/
def in_character_select_errors (g : Nat × Nat → Nat) : Nat :=
  (pixels_character_select.filter
    (fun pair => ! _in_acceptable_range (_pixel_to_rgb (g pair)) color_character_select 3)).length

/-- Embeds `_in_character_select`: the rule matches when `errors < 2`. -/
def _in_character_select (g : Nat × Nat → Nat) : Bool :=
  decide (in_character_select_errors g < 2)

/-- Embeds the `GameState` enumeration. -/
inductive GameState where
  | UNKNOWN
  | IN_MENU
  | WAITING
  | CHARACTER_SELECT
  deriving DecidableEq, Repr

/-- Embeds `get_state`: first matching rule wins, in the fixed order
in_menu, waiting, character_select; otherwise UNKNOWN. -/
def get_state (g : Nat × Nat → Nat) : GameState :=
  if _in_menu g then GameState.IN_MENU
  else if _waiting g then GameState.WAITING
  else if _in_character_select g then GameState.CHARACTER_SELECT
  else GameState.UNKNOWN

/-! ## lib/spotify_lib.py -/

/-- Python exceptions that the embedded code can raise. The first four
are the exception classes declared in lib/spotify_lib.py; the rest are
Python built-ins raised by the code. -/
inductive PyExc where
  | InvalidTokenError
  | NotAuthenticatedError
  | InvalidClientError
  | RequestFailedError (msg : String)
  | TimeoutError
  | KeyError
  | ValueError
  | AssertionError
  | OSError
  deriving DecidableEq, Repr

/-- Observable network activity of a client operation: an HTTPS PUT
with its query parameters, an HTTPS POST with its form data, or a
blocking sleep of the given number of seconds. -/
inductive NetEvent where
  | put (url : String) (params : List (String × Int))
  | post (url : String) (data : List (String × String))
  | sleep (secs : Nat)
  deriving DecidableEq, Repr

/-- The mutable fields of `SpotifyClient` (its `__init__` sets
`authenticated = False` and both tokens to `None`). -/
structure ClientState where
  authenticated : Bool
  access_token : Option String
  refresh_token : Option String
  scopes : List String
  client_id : String
  client_secret : String
  deriving DecidableEq, Repr

/-- Embeds `_parse_common_status`: dispatch on the final status code of
a player request, flipping `authenticated` to false on 401. Returns the
updated state and the raised exception, if any. -/
def _parse_common_status (st : ClientState) (status : Nat) (error_msg : String) :
    ClientState × Option PyExc :=
  if status = 204 then (st, none)
  else if status = 404 then (st, some (PyExc.RequestFailedError "Playback device not found"))
  else if status = 403 then (st, some (PyExc.RequestFailedError error_msg))
  else if status = 401 then
    ({ st with authenticated := false }, some PyExc.InvalidTokenError)
  else (st, some (PyExc.RequestFailedError "Unhandled response code"))

/-- Embeds the `for tries in range(5)` retry loop of
`_send_common_request`, entered after a 202 first response. Each
iteration sleeps 5 seconds and re-issues the PUT without the original
query parameters; it stops with the response on a 204, and raises
`TimeoutError` when the last iteration (`tries == 4`) is not a 204.
`idx` is the index of the next request in `responses`; the loop is
called with `fuel = 5`. -/
def retry_put (base_url : String) (responses : Nat → Nat) (idx : Nat) :
    Nat → List NetEvent × Except PyExc Nat
  | 0 => ([], Except.error PyExc.TimeoutError)
  | fuel + 1 =>
    let evs := [NetEvent.sleep 5, NetEvent.put base_url []]
    if responses idx = 204 then (evs, Except.ok 204)
    else
      match fuel with
      | 0 => (evs, Except.error PyExc.TimeoutError)
      | f + 1 =>
        let rest := retry_put base_url responses (idx + 1) (f + 1)
        (evs ++ rest.1, rest.2)

/-- Embeds `_send_common_request`: raise `NotAuthenticatedError` when
not authenticated (no request issued); otherwise issue the PUT with the
given query parameters, run the retry loop if the response is 202, and
parse the final status. Returns the new state, the network events in
order, and the raised exception, if any. -/
def _send_common_request (st : ClientState) (base_url success_msg error_msg : String)
    (params : List (String × Int)) (responses : Nat → Nat) :
    ClientState × List NetEvent × Option PyExc :=
  if st.authenticated then
    let ev0 := NetEvent.put base_url params
    let res0 := responses 0
    if res0 = 202 then
      let r := retry_put base_url responses 1 5
      match r.2 with
      | Except.error e => (st, ev0 :: r.1, some e)
      | Except.ok resN =>
        let p := _parse_common_status st resN error_msg
        (p.1, ev0 :: r.1, p.2)
    else
      let p := _parse_common_status st res0 error_msg
      (p.1, [ev0], p.2)
  else (st, [], some PyExc.NotAuthenticatedError)

/-- Embeds `SpotifyClient.play` (the `try`/`except ...: raise` wrapper
re-raises unchanged). -/
def play (st : ClientState) (responses : Nat → Nat) :
    ClientState × List NetEvent × Option PyExc :=
  _send_common_request st "api.spotify.com/v1/me/player/play"
    "Started playback" "Unable to play" [] responses

/-- Embeds `SpotifyClient.pause`. -/
def pause (st : ClientState) (responses : Nat → Nat) :
    ClientState × List NetEvent × Option PyExc :=
  _send_common_request st "api.spotify.com/v1/me/player/pause"
    "Paused playback" "Unable to pause" [] responses

/-- Embeds `SpotifyClient.set_volume`: the first request carries the
query parameter `volume_percent`. -/
def set_volume (st : ClientState) (volume : Int) (responses : Nat → Nat) :
    ClientState × List NetEvent × Option PyExc :=
  _send_common_request st "api.spotify.com/v1/me/player/volume"
    ("Set volume to " ++ toString volume) "Unable to set volume"
    [("volume_percent", volume)] responses

/-- Python truthiness of a string: non-empty. -/
def truthy (s : String) : Bool := s ≠ ""

/-- Python truthiness of an optional string: present and non-empty. -/
def truthyOpt (s : Option String) : Bool :=
  match s with
  | none => false
  | some v => v ≠ ""

/-- The relevant fields of a parsed token-endpoint response: the HTTP
status and the `scope`, `access_token` and `refresh_token` fields of
the JSON body (`none` models a missing key, giving `KeyError`). -/
structure TokenResponse where
  status : Nat
  scope : Option String
  access_token : Option String
  refresh_token : Option String
  deriving DecidableEq, Repr

/-- Embeds `SpotifyClient.refresh`: raise `InvalidClientError` before
any network request when `client_id`, `client_secret` or
`refresh_token` is unset/empty; otherwise POST to the token endpoint
and require a 200 status, a `scope` value splitting to exactly the
requested scopes, and an `access_token`; any of those failing raises
`InvalidTokenError` (the `except (KeyError, AssertionError)` clause).
`resp` is the response of the token endpoint. -/
def refresh (st : ClientState) (resp : TokenResponse) :
    ClientState × List NetEvent × Option PyExc :=
  if truthy st.client_id && truthy st.client_secret && truthyOpt st.refresh_token then
    let ev := NetEvent.post "accounts.spotify.com/api/token"
      [("grant_type", "refresh_token"), ("refresh_token", st.refresh_token.getD "")]
    if resp.status = 200 then
      match resp.scope with
      | none => (st, [ev], some PyExc.InvalidTokenError)
      | some sc =>
        if sc.splitOn " " = st.scopes then
          match resp.access_token with
          | none => (st, [ev], some PyExc.InvalidTokenError)
          | some tok =>
            ({ st with access_token := some tok, authenticated := true }, [ev], none)
        else (st, [ev], some PyExc.InvalidTokenError)
    else (st, [ev], some PyExc.InvalidTokenError)
  else (st, [], some PyExc.InvalidClientError)

/-- Embeds the interactive authorization-code branch of
`SpotifyClient.authenticate`: POST the pasted `auth_code` to the token
endpoint with HTTP Basic auth; a non-200 status or a scope mismatch
raises `AssertionError`, a missing JSON field raises `KeyError`
(both re-raised by the `except (KeyError, AssertionError)` clause); on
success both tokens are stored and `authenticated` is set, then the
refresh token is written to the refresh.token file — `write_ok = false`
models that write failing, which re-raises the `OSError` after the
state was already updated. -/
def authenticate_interactive (st : ClientState) (auth_code : String)
    (resp : TokenResponse) (write_ok : Bool) :
    ClientState × List NetEvent × Option PyExc :=
  let ev := NetEvent.post "accounts.spotify.com/api/token"
    [("grant_type", "authorization_code"), ("code", auth_code),
     ("redirect_uri", "https://localhost/")]
  if resp.status = 200 then
    match resp.scope with
    | none => (st, [ev], some PyExc.KeyError)
    | some sc =>
      if sc.splitOn " " = st.scopes then
        match resp.access_token, resp.refresh_token with
        | some atok, some rtok =>
          let st2 := { st with access_token := some atok,
                               refresh_token := some rtok, authenticated := true }
          if write_ok then (st2, [ev], none) else (st2, [ev], some PyExc.OSError)
        | _, _ => (st, [ev], some PyExc.KeyError)
      else (st, [ev], some PyExc.AssertionError)
  else (st, [ev], some PyExc.AssertionError)

/-- Embeds `SpotifyClient.authenticate`. File access is external:
`stored_token` is the first line of refresh.token when the file is
readable, `none` when opening it fails. With a stored token the client
stores it and calls `refresh`; only `InvalidTokenError` (and the file
errors already covered by `stored_token = none`) is caught and falls
back to the interactive flow — in particular `InvalidClientError`
propagates. `refresh_resp` answers the refresh POST and `token_resp`
the interactive POST. -/
def authenticate (st : ClientState) (stored_token : Option String) (auth_code : String)
    (refresh_resp token_resp : TokenResponse) (write_ok : Bool) :
    ClientState × List NetEvent × Option PyExc :=
  match stored_token with
  | some tok =>
    let st1 := { st with refresh_token := some tok }
    let r := refresh st1 refresh_resp
    match r.2.2 with
    | none => (r.1, r.2.1, none)
    | some PyExc.InvalidTokenError =>
      let ia := authenticate_interactive r.1 auth_code token_resp write_ok
      (ia.1, r.2.1 ++ ia.2.1, ia.2.2)
    | some e => (r.1, r.2.1, some e)
  | none => authenticate_interactive st auth_code token_resp write_ok

/-! ## overwatch_spotify.py (action dispatcher) -/

/-- A JSON value appearing inside a configured action entry: the action
name (a string) or a positional argument (a number). -/
inductive CfgVal where
  | str (s : String)
  | num (n : Int)
  deriving DecidableEq, Repr

/-- A configured action: the JSON list `[actionName, ...args]`. -/
abbrev Action := List CfgVal

/-- The CONFIG dictionary: state name to its `actions` list, as an
insertion-ordered association list (Python dict semantics: `lookup`
finds the unique binding). -/
abbrev Config := List (String × List Action)

/-- The `handled_errors` component of the CFG_MAP built in `main()`:
the three known action names with their expected error messages;
`none` for any other name (so `CFG_MAP[action_name]` raises
`KeyError`). -/
def CFG_MAP_handled_errors (name : String) : Option (List String) :=
  if name = "set_volume" then some ["Unable to set volume"]
  else if name = "play" then some ["Unable to play"]
  else if name = "pause" then some ["Unable to pause"]
  else none

/-- Embeds `try_spotify_function`, abstracting the invoked operation by
its outcome (`none` = returned normally, `some e` = raised `e`):
`InvalidTokenError` is swallowed; `RequestFailedError` is swallowed
when its message is in `handled_errors` and otherwise logged as an
unhandled error; every other exception escapes. Returns the log lines
emitted at error level and the escaping exception, if any. -/
def try_spotify_function (outcome : Option PyExc) (handled_errors : List String) :
    List String × Option PyExc :=
  match outcome with
  | none => ([], none)
  | some PyExc.InvalidTokenError => ([], none)
  | some (PyExc.RequestFailedError msg) =>
    if msg ∈ handled_errors then ([], none)
    else (["Spotify: An unhandled error has been raised"], none)
  | some e => ([], some e)

/-- Embeds the loop over the actions list of `CONFIG[event_name]` of
`handle_event`. `outcomes i` is the outcome of the i-th operation
actually invoked. Per iteration, `except ValueError: pass` catches the
unpack error of an empty action entry (and a `ValueError` escaping the
invocation); a `KeyError` from `CFG_MAP[action_name]` — an action name
that is no string or resolves to no known operation — escapes, as does
any exception escaping `try_spotify_function`. -/
def handle_actions (outcomes : Nat → Option PyExc) :
    List Action → Nat → List String × Option PyExc
  | [], _ => ([], none)
  | [] :: rest, i => handle_actions outcomes rest i
  | (CfgVal.num _ :: _) :: _, _ => ([], some PyExc.KeyError)
  | (CfgVal.str name :: _) :: rest, i =>
    match CFG_MAP_handled_errors name with
    | none => ([], some PyExc.KeyError)
    | some handled =>
      let r := try_spotify_function (outcomes i) handled
      match r.2 with
      | some PyExc.ValueError =>
        let k := handle_actions outcomes rest (i + 1)
        (r.1 ++ k.1, k.2)
      | some e => (r.1, some e)
      | none =>
        let k := handle_actions outcomes rest (i + 1)
        (r.1 ++ k.1, k.2)

/-- Embeds `handle_event`: `CONFIG[event_name]` raises `KeyError` when
the state name has no entry; otherwise the action loop runs. -/
def handle_event (config : Config) (outcomes : Nat → Option PyExc) (event_name : String) :
    List String × Option PyExc :=
  match config.lookup event_name with
  | none => ([], some PyExc.KeyError)
  | some actions => handle_actions outcomes actions 0

/-- Python dict assignment `d[key] = val` on the association-list
representation: replace the binding if present, else append. -/
def dict_set (config : Config) (key : String) (val : List Action) : Config :=
  match config with
  | [] => [(key, val)]
  | kv :: rest => if kv.1 = key then (key, val) :: rest else kv :: dict_set rest key val

/-- The built-in default CONFIG of `load_config` (used when the config
file is missing or malformed). Note it has no `unknown` entry. -/
def CONFIG_default : Config :=
  [("main_menu", [[CfgVal.str "set_volume", CfgVal.num 80], [CfgVal.str "play"]]),
   ("waiting", [[CfgVal.str "set_volume", CfgVal.num 80]]),
   ("character_select", [[CfgVal.str "pause"]])]

/-- Embeds `load_config`. File access is external: `file_config` is the
parsed JSON of overwatch_spotify.cfg when the file is readable and
valid, `none` otherwise. On success the unknown key of CONFIG is set
to an empty actions list before returning; on failure the defaults are loaded (without
that assignment). -/
def load_config (file_config : Option Config) : Config :=
  match file_config with
  | some cfg => dict_set cfg "unknown" []
  | none => CONFIG_default

/-! ## Concrete inputs used by counterexamples and witnesses -/

/-- A sampler with exactly two mismatches on the in_menu samples,
exactly one non-greyscale waiting sample and exactly two mismatches on
the character_select samples. -/
def sampler_boundary : Nat × Nat → Nat := fun p =>
  if p = (1989, 49) ∨ p = (1976, 87) then 24 + 113 * 256 + 186 * 65536
  else if p = (2369, 1204) then 255
  else if p = (2357, 250) ∨ p = (2402, 250) then 16777215
  else 0

/-- An authenticated client. -/
def st_auth : ClientState :=
  { authenticated := true, access_token := some "token", refresh_token := some "refresh",
    scopes := ["user-modify-playback-state"], client_id := "id", client_secret := "secret" }

/-- A freshly constructed, unauthenticated client. -/
def st_unauth : ClientState :=
  { authenticated := false, access_token := none, refresh_token := none,
    scopes := ["user-modify-playback-state"], client_id := "id", client_secret := "secret" }

/-- A client whose credentials are empty. -/
def st_empty_creds : ClientState :=
  { authenticated := false, access_token := none, refresh_token := none,
    scopes := ["user-modify-playback-state"], client_id := "", client_secret := "" }

/-- Status sequence: first response 202, every retry 401. -/
def responses_202_401 : Nat → Nat := fun i => if i = 0 then 202 else 401

/-- Status sequence: first response 202, every retry 500. -/
def responses_202_500 : Nat → Nat := fun i => if i = 0 then 202 else 500

/-- Status sequence: every response 401. -/
def responses_401 : Nat → Nat := fun _ => 401

/-- A 400 token-endpoint response with an empty body. -/
def resp400 : TokenResponse :=
  { status := 400, scope := none, access_token := none, refresh_token := none }

/-- The network events of an exhausted retry loop: five retries, each
preceded by a 5-second sleep, each without query parameters. -/
def retry_trace (u : String) : List NetEvent :=
  [NetEvent.sleep 5, NetEvent.put u [], NetEvent.sleep 5, NetEvent.put u [],
   NetEvent.sleep 5, NetEvent.put u [], NetEvent.sleep 5, NetEvent.put u [],
   NetEvent.sleep 5, NetEvent.put u []]

/-! ## Theorems -/

/-- Claim C7 counterexample: the sample (2, 0, 0) deviates from the
reference (0, 0, 0) by exactly the tolerance distance 2 on the first
channel and by 0 elsewhere, so under the claim it should match; the
code rejects it, because `_in_acceptable_range` uses strict
inequalities. -/
theorem C7_counterexample :
    _in_acceptable_range ((2 : Int), 0, 0) ((0 : Int), 0, 0) 2 = false ∧
    (2 : Int) - 0 ≤ 2 ∧ (0 : Int) - 0 ≤ 2 ∧ (0 : Int) - 0 ≤ 2 := by
  refine ⟨?_, by norm_num, by norm_num, by norm_num⟩
  decide

/-- Claim C7 (amended): the color-match predicate holds exactly when
every channel of the sample deviates from the corresponding reference
channel by strictly less than the tolerance distance; a deviation
exactly equal to the distance does not match. -/
theorem C7_per_channel_strict_tolerance (color_to_check color_ref : Color) (distance : Int) :
    _in_acceptable_range color_to_check color_ref distance = true ↔
      |color_to_check.1 - color_ref.1| < distance ∧
      |color_to_check.2.1 - color_ref.2.1| < distance ∧
      |color_to_check.2.2 - color_ref.2.2| < distance := by
  obtain ⟨r, g, b⟩ := color_to_check
  obtain ⟨r0, g0, b0⟩ := color_ref
  simp only [_in_acceptable_range, abs_lt]
  split_ifs with h1 h2 h3 <;> simp <;> omega

/-- Claim C8: the greyscale predicate returns true if and only if the
difference between the greatest and the smallest channel value is at
most the tolerance (for a nonnegative tolerance). -/
theorem C8_greyscale_iff_spread_le_tolerance (color_to_check : Color) (tolerance : Int)
    (ht : 0 ≤ tolerance) :
    _is_greyscale color_to_check tolerance = true ↔
      max color_to_check.1 (max color_to_check.2.1 color_to_check.2.2) -
        min color_to_check.1 (min color_to_check.2.1 color_to_check.2.2) ≤ tolerance := by
  obtain ⟨r, g, b⟩ := color_to_check
  simp only [_is_greyscale, Bool.and_eq_true, decide_eq_true_eq]
  omega

/-- Witness for C8 at the concrete color (10, 12, 5) and tolerance 12. -/
theorem C8_greyscale_iff_spread_le_tolerance_witness :
    (0 : Int) ≤ 12 ∧
    (_is_greyscale ((10 : Int), 12, 5) 12 = true ↔
      max (10 : Int) (max 12 5) - min (10 : Int) (min 12 5) ≤ 12) :=
  ⟨by norm_num, C8_greyscale_iff_spread_le_tolerance ((10 : Int), 12, 5) 12 (by norm_num)⟩

/-- Claim C6: each detector rule matches exactly when its mismatch
count is strictly below its threshold (2 for in_menu, 1 for waiting, 2
for character_select); at a mismatch count equal to the threshold the
rule does not match, and `get_state` does not classify to the state of
that rule. -/
theorem C6_threshold_boundary (g : Nat × Nat → Nat) :
    (_in_menu g = true ↔ in_menu_errors g < 2) ∧
    (in_menu_errors g = 2 → _in_menu g = false ∧ get_state g ≠ GameState.IN_MENU) ∧
    (_waiting g = true ↔ waiting_errors g < 1) ∧
    (waiting_errors g = 1 → _waiting g = false ∧ get_state g ≠ GameState.WAITING) ∧
    (_in_character_select g = true ↔ in_character_select_errors g < 2) ∧
    (in_character_select_errors g = 2 →
      _in_character_select g = false ∧ get_state g ≠ GameState.CHARACTER_SELECT) := by
  refine ⟨by simp [_in_menu], ?_, by simp [_waiting], ?_, by simp [_in_character_select], ?_⟩
  · intro h
    have hm : _in_menu g = false := by simp [_in_menu, h]
    refine ⟨hm, ?_⟩
    simp only [get_state, hm]
    split_ifs <;> simp_all
  · intro h
    have hw : _waiting g = false := by simp [_waiting, h]
    refine ⟨hw, ?_⟩
    simp only [get_state, hw]
    split_ifs <;> simp_all
  · intro h
    have hc : _in_character_select g = false := by simp [_in_character_select, h]
    refine ⟨hc, ?_⟩
    simp only [get_state, hc]
    split_ifs <;> simp_all

/-- Witness for C6: a concrete sampler realizing a mismatch count equal
to the threshold for each of the three rules. -/
theorem C6_threshold_boundary_witness :
    (in_menu_errors sampler_boundary = 2 ∧ _in_menu sampler_boundary = false) ∧
    (waiting_errors sampler_boundary = 1 ∧ _waiting sampler_boundary = false) ∧
    (in_character_select_errors sampler_boundary = 2 ∧
      _in_character_select sampler_boundary = false) :=
  ⟨⟨by decide, ((C6_threshold_boundary sampler_boundary).2.1 (by decide)).1⟩,
   ⟨by decide, ((C6_threshold_boundary sampler_boundary).2.2.2.1 (by decide)).1⟩,
   ⟨by decide, ((C6_threshold_boundary sampler_boundary).2.2.2.2.2 (by decide)).1⟩⟩

/-! ### Helper lemmas about the retry loop and the shared request routine -/

/-- Unfolding lemma for `retry_put` when at least two tries remain. -/
theorem retry_put_two_left (u : String) (rs : Nat → Nat) (idx f : Nat) :
    retry_put u rs idx (f + 2) =
      if rs idx = 204 then ([NetEvent.sleep 5, NetEvent.put u []], Except.ok 204)
      else
        ([NetEvent.sleep 5, NetEvent.put u []] ++ (retry_put u rs (idx + 1) (f + 1)).1,
         (retry_put u rs (idx + 1) (f + 1)).2) := by
  rw [retry_put]

/-- Unfolding lemma for `retry_put` on its last try. -/
theorem retry_put_one_left (u : String) (rs : Nat → Nat) (idx : Nat) :
    retry_put u rs idx 1 =
      if rs idx = 204 then ([NetEvent.sleep 5, NetEvent.put u []], Except.ok 204)
      else ([NetEvent.sleep 5, NetEvent.put u []], Except.error PyExc.TimeoutError) := by
  rw [retry_put]

/-- The retry loop either times out or stops at a 204 response. -/
theorem retry_put_outcome (u : String) (rs : Nat → Nat) (fuel : Nat) : ∀ idx,
    (retry_put u rs idx fuel).2 = Except.error PyExc.TimeoutError ∨
    (retry_put u rs idx fuel).2 = Except.ok 204 := by
  induction fuel with
  | zero => intro idx; left; rfl
  | succ f ih =>
    intro idx
    cases f with
    | zero =>
      rw [retry_put_one_left]
      by_cases h : rs idx = 204
      · right; simp [h]
      · left; simp [h]
    | succ f2 =>
      rw [retry_put_two_left]
      by_cases h : rs idx = 204
      · right; simp [h]
      · simp only [if_neg h]
        simpa using ih (idx + 1)

/-- Every PUT issued by the retry loop carries no query parameters. -/
theorem retry_put_no_params (u : String) (rs : Nat → Nat) (fuel : Nat) : ∀ idx url p,
    NetEvent.put url p ∈ (retry_put u rs idx fuel).1 → p = [] := by
  induction fuel with
  | zero => intro idx url p h; simp [retry_put] at h
  | succ f ih =>
    intro idx url p h
    cases f with
    | zero =>
      rw [retry_put_one_left] at h
      by_cases h204 : rs idx = 204 <;> simp [h204] at h <;> exact h.2
    | succ f2 =>
      rw [retry_put_two_left] at h
      by_cases h204 : rs idx = 204
      · simp [h204] at h
        exact h.2
      · simp only [if_neg h204, List.mem_append] at h
        rcases h with h | h
        · simp at h
          exact h.2
        · exact ih (idx + 1) url p h

/-- When none of the five retries answers 204, the retry loop issues
exactly five sleep-then-PUT pairs and times out. -/
theorem retry_put_exhausted (u : String) (rs : Nat → Nat)
    (h1 : rs 1 ≠ 204) (h2 : rs 2 ≠ 204) (h3 : rs 3 ≠ 204) (h4 : rs 4 ≠ 204)
    (h5 : rs 5 ≠ 204) :
    retry_put u rs 1 5 = (retry_trace u, Except.error PyExc.TimeoutError) := by
  rw [retry_put_two_left, if_neg h1, retry_put_two_left, if_neg h2,
      retry_put_two_left, if_neg h3, retry_put_two_left, if_neg h4,
      retry_put_one_left, if_neg h5]
  rfl

/-- When not authenticated, the shared request routine raises
immediately and issues nothing. -/
theorem send_not_authenticated (st : ClientState) (u sm em : String)
    (ps : List (String × Int)) (rs : Nat → Nat) (h : st.authenticated = false) :
    _send_common_request st u sm em ps rs = (st, [], some PyExc.NotAuthenticatedError) := by
  simp [_send_common_request, h]

/-- When the first response is 401, the shared request routine flips
the authenticated flag and raises `InvalidTokenError`. -/
theorem send_first_401 (st : ClientState) (u sm em : String)
    (ps : List (String × Int)) (rs : Nat → Nat)
    (hauth : st.authenticated = true) (h0 : rs 0 = 401) :
    _send_common_request st u sm em ps rs =
      ({ st with authenticated := false }, [NetEvent.put u ps], some PyExc.InvalidTokenError) := by
  simp [_send_common_request, hauth, h0, _parse_common_status]

/-- After a 202 first response the shared request routine leaves the
state unchanged and either returns normally or raises `TimeoutError`;
its trace is the first PUT followed by the retry-loop events. -/
theorem send_first_202 (st : ClientState) (u sm em : String)
    (ps : List (String × Int)) (rs : Nat → Nat)
    (hauth : st.authenticated = true) (h0 : rs 0 = 202) :
    (_send_common_request st u sm em ps rs).1 = st ∧
    (_send_common_request st u sm em ps rs).2.1 =
      NetEvent.put u ps :: (retry_put u rs 1 5).1 ∧
    ((_send_common_request st u sm em ps rs).2.2 = none ∨
     (_send_common_request st u sm em ps rs).2.2 = some PyExc.TimeoutError) := by
  rcases retry_put_outcome u rs 5 1 with h | h
  · refine ⟨?_, ?_, Or.inr ?_⟩ <;> simp [_send_common_request, hauth, h0, h]
  · refine ⟨?_, ?_, Or.inl ?_⟩ <;>
      simp [_send_common_request, hauth, h0, h, _parse_common_status]

/-- When all five retries fail after a 202, the shared request routine
produces the full six-request trace and raises `TimeoutError`. -/
theorem send_202_exhausted (st : ClientState) (u sm em : String)
    (ps : List (String × Int)) (rs : Nat → Nat)
    (hauth : st.authenticated = true) (h0 : rs 0 = 202)
    (hno : ∀ j, 1 ≤ j → j ≤ 5 → rs j ≠ 204) :
    _send_common_request st u sm em ps rs =
      (st, NetEvent.put u ps :: retry_trace u, some PyExc.TimeoutError) := by
  have ht := retry_put_exhausted u rs (hno 1 (by norm_num) (by norm_num))
    (hno 2 (by norm_num) (by norm_num)) (hno 3 (by norm_num) (by norm_num))
    (hno 4 (by norm_num) (by norm_num)) (hno 5 (by norm_num) (by norm_num))
  simp [_send_common_request, hauth, h0, ht]

/-! ### Claims about the remote operations -/

/-- Claim C9: every remote operation on a client that is not
authenticated fails immediately with `NotAuthenticatedError` and issues
no network request (empty event trace). -/
theorem C9_not_authenticated_blocks (st : ClientState) (volume : Int)
    (responses : Nat → Nat) (h : st.authenticated = false) :
    play st responses = (st, [], some PyExc.NotAuthenticatedError) ∧
    pause st responses = (st, [], some PyExc.NotAuthenticatedError) ∧
    set_volume st volume responses = (st, [], some PyExc.NotAuthenticatedError) :=
  ⟨send_not_authenticated st _ _ _ [] responses h,
   send_not_authenticated st _ _ _ [] responses h,
   send_not_authenticated st _ _ _ [("volume_percent", volume)] responses h⟩

/-- Witness for C9: a fresh client is unauthenticated and `play` on it
raises `NotAuthenticatedError` with no network activity. -/
theorem C9_not_authenticated_blocks_witness :
    st_unauth.authenticated = false ∧
    play st_unauth (fun _ => 204) = (st_unauth, [], some PyExc.NotAuthenticatedError) :=
  ⟨rfl, (C9_not_authenticated_blocks st_unauth 80 (fun _ => 204) rfl).1⟩

/-- Claim C3: after a 202 first response, each operation retries five
times, sleeping 5 seconds before each retry, and when no retry answers
204 it fails with `TimeoutError` after exactly those five attempts (the
trace lists the initial PUT and then five sleep-and-PUT pairs). -/
theorem C3_timeout_after_five_retries (st : ClientState) (volume : Int)
    (responses : Nat → Nat) (hauth : st.authenticated = true)
    (h0 : responses 0 = 202) (hno : ∀ j, 1 ≤ j → j ≤ 5 → responses j ≠ 204) :
    play st responses =
      (st, NetEvent.put "api.spotify.com/v1/me/player/play" [] ::
        retry_trace "api.spotify.com/v1/me/player/play", some PyExc.TimeoutError) ∧
    pause st responses =
      (st, NetEvent.put "api.spotify.com/v1/me/player/pause" [] ::
        retry_trace "api.spotify.com/v1/me/player/pause", some PyExc.TimeoutError) ∧
    set_volume st volume responses =
      (st, NetEvent.put "api.spotify.com/v1/me/player/volume" [("volume_percent", volume)] ::
        retry_trace "api.spotify.com/v1/me/player/volume", some PyExc.TimeoutError) :=
  ⟨send_202_exhausted st _ _ _ [] responses hauth h0 hno,
   send_202_exhausted st _ _ _ [] responses hauth h0 hno,
   send_202_exhausted st _ _ _ [("volume_percent", volume)] responses hauth h0 hno⟩

/-- Witness for C3: an authenticated client, a 202 first response and
500 on every retry make `play` time out after the five retries. -/
theorem C3_timeout_after_five_retries_witness :
    st_auth.authenticated = true ∧ responses_202_500 0 = 202 ∧
    play st_auth responses_202_500 =
      (st_auth, NetEvent.put "api.spotify.com/v1/me/player/play" [] ::
        retry_trace "api.spotify.com/v1/me/player/play", some PyExc.TimeoutError) :=
  ⟨rfl, rfl,
   (C3_timeout_after_five_retries st_auth 80 responses_202_500 rfl rfl
     (by
       intro j hj1 hj5
       have hj : ¬ j = 0 := by omega
       rw [responses_202_500]
       simp only [if_neg hj]
       decide)).1⟩

/-- Claim C2 counterexample: with a 202 first response and a 401 on
every retry, `pause` does not flip the authenticated flag and fails
with `TimeoutError` rather than `InvalidTokenError` — a 401 arriving
inside the 202 retry loop is not handled as an invalid token. -/
theorem C2_counterexample :
    (pause st_auth responses_202_401).1.authenticated = true ∧
    (pause st_auth responses_202_401).2.2 = some PyExc.TimeoutError := by
  constructor <;> rfl

/-- Claim C2 (amended): a 401 received on the first request of any
operation flips the authenticated flag to false and fails the
operation with `InvalidTokenError`; but a 401 received on a retry
inside the 202 loop does not — after a 202 first response the
operation leaves the state unchanged and either succeeds or fails with
`TimeoutError`. -/
theorem C2_unauthorized_first_response (st : ClientState) (volume : Int)
    (responses : Nat → Nat) (hauth : st.authenticated = true) :
    (responses 0 = 401 →
      play st responses = ({ st with authenticated := false },
        [NetEvent.put "api.spotify.com/v1/me/player/play" []], some PyExc.InvalidTokenError) ∧
      pause st responses = ({ st with authenticated := false },
        [NetEvent.put "api.spotify.com/v1/me/player/pause" []], some PyExc.InvalidTokenError) ∧
      set_volume st volume responses = ({ st with authenticated := false },
        [NetEvent.put "api.spotify.com/v1/me/player/volume" [("volume_percent", volume)]],
        some PyExc.InvalidTokenError)) ∧
    (responses 0 = 202 →
      ((play st responses).1 = st ∧
        ((play st responses).2.2 = none ∨ (play st responses).2.2 = some PyExc.TimeoutError)) ∧
      ((pause st responses).1 = st ∧
        ((pause st responses).2.2 = none ∨ (pause st responses).2.2 = some PyExc.TimeoutError)) ∧
      ((set_volume st volume responses).1 = st ∧
        ((set_volume st volume responses).2.2 = none ∨
         (set_volume st volume responses).2.2 = some PyExc.TimeoutError))) := by
  constructor
  · intro h0
    exact ⟨send_first_401 st _ _ _ [] responses hauth h0,
           send_first_401 st _ _ _ [] responses hauth h0,
           send_first_401 st _ _ _ [("volume_percent", volume)] responses hauth h0⟩
  · intro h0
    have hp := send_first_202 st "api.spotify.com/v1/me/player/play" "Started playback"
      "Unable to play" [] responses hauth h0
    have hq := send_first_202 st "api.spotify.com/v1/me/player/pause" "Paused playback"
      "Unable to pause" [] responses hauth h0
    have hv := send_first_202 st "api.spotify.com/v1/me/player/volume"
      ("Set volume to " ++ toString volume) "Unable to set volume"
      [("volume_percent", volume)] responses hauth h0
    exact ⟨⟨hp.1, hp.2.2⟩, ⟨hq.1, hq.2.2⟩, ⟨hv.1, hv.2.2⟩⟩

/-- Witness for C2 (amended): a 401 on the first response of `pause`
flips the flag and raises `InvalidTokenError`. -/
theorem C2_unauthorized_first_response_witness :
    st_auth.authenticated = true ∧
    pause st_auth responses_401 = ({ st_auth with authenticated := false },
      [NetEvent.put "api.spotify.com/v1/me/player/pause" []], some PyExc.InvalidTokenError) :=
  ⟨rfl, ((C2_unauthorized_first_response st_auth 80 responses_401 rfl).1 rfl).2.1⟩

/-- Claim C10: after a 202 first response, the first request of
`set_volume` carries the volume_percent query parameter and every PUT
issued by the retry loop carries no query parameters at all. -/
theorem C10_retries_drop_query_params (st : ClientState) (volume : Int)
    (responses : Nat → Nat) (hauth : st.authenticated = true)
    (h0 : responses 0 = 202) :
    ∃ rest, (set_volume st volume responses).2.1 =
        NetEvent.put "api.spotify.com/v1/me/player/volume" [("volume_percent", volume)] :: rest ∧
      ∀ url p, NetEvent.put url p ∈ rest → p = [] := by
  refine ⟨(retry_put "api.spotify.com/v1/me/player/volume" responses 1 5).1, ?_, ?_⟩
  · exact (send_first_202 st _ _ _ [("volume_percent", volume)] responses hauth h0).2.1
  · intro url p hm
    exact retry_put_no_params "api.spotify.com/v1/me/player/volume" responses 5 1 url p hm

/-- Witness for C10 at a concrete authenticated client and a response
sequence whose retries all answer 500. -/
theorem C10_retries_drop_query_params_witness :
    st_auth.authenticated = true ∧ responses_202_500 0 = 202 ∧
    ∃ rest, (set_volume st_auth 80 responses_202_500).2.1 =
        NetEvent.put "api.spotify.com/v1/me/player/volume" [("volume_percent", 80)] :: rest ∧
      ∀ url p, NetEvent.put url p ∈ rest → p = [] :=
  ⟨rfl, rfl, C10_retries_drop_query_params st_auth 80 responses_202_500 rfl rfl⟩

/-! ### Claims about authenticate and refresh -/

/-- Claim C4 counterexample: with empty client credentials but no
readable stored refresh token, `authenticate` does not fail with
`InvalidClientError` before any network call — it enters the
interactive flow, issues the token POST, and fails with the
`AssertionError` of the non-200 response. -/
theorem C4_counterexample :
    authenticate st_empty_creds none "code" resp400 resp400 true =
      (st_empty_creds,
       [NetEvent.post "accounts.spotify.com/api/token"
         [("grant_type", "authorization_code"), ("code", "code"),
          ("redirect_uri", "https://localhost/")]],
       some PyExc.AssertionError) ∧
    st_empty_creds.client_id = "" := by
  constructor <;> rfl

/-- Claim C4 (amended): `refresh` fails with `InvalidClientError`
before issuing any network call whenever client_id or client_secret is
empty; `authenticate` does the same when a stored refresh token is
readable (it stores the token and the `InvalidClientError` of the
inner `refresh` propagates), but with no stored token it proceeds to
the interactive flow instead. -/
theorem C4_invalid_client_before_network (st : ClientState) (tok auth_code : String)
    (refresh_resp token_resp : TokenResponse) (write_ok : Bool)
    (h : st.client_id = "" ∨ st.client_secret = "") :
    refresh st refresh_resp = (st, [], some PyExc.InvalidClientError) ∧
    authenticate st (some tok) auth_code refresh_resp token_resp write_ok =
      ({ st with refresh_token := some tok }, [], some PyExc.InvalidClientError) := by
  have hr : ∀ st2 : ClientState, st2.client_id = st.client_id →
      st2.client_secret = st.client_secret →
      refresh st2 refresh_resp = (st2, [], some PyExc.InvalidClientError) := by
    intro st2 h1 h2
    rcases h with h | h <;> simp [refresh, truthy, h1, h2, h]
  refine ⟨hr st rfl rfl, ?_⟩
  simp only [authenticate]
  rw [hr { st with refresh_token := some tok } rfl rfl]

/-- Witness for C4 (amended) at a client with empty credentials. -/
theorem C4_invalid_client_before_network_witness :
    (st_empty_creds.client_id = "" ∨ st_empty_creds.client_secret = "") ∧
    refresh st_empty_creds resp400 = (st_empty_creds, [], some PyExc.InvalidClientError) :=
  ⟨Or.inl rfl,
   (C4_invalid_client_before_network st_empty_creds "tok" "code" resp400 resp400 true
     (Or.inl rfl)).1⟩

/-! ### Claims about the action dispatcher -/

/-- Dict assignment followed by lookup of the same key finds the
assigned value. -/
theorem lookup_dict_set (cfg : Config) (key : String) (val : List Action) :
    (dict_set cfg key val).lookup key = some val := by
  induction cfg with
  | nil => simp [dict_set, List.lookup]
  | cons kv rest ih =>
    by_cases h : kv.1 = key
    · simp [dict_set, h, List.lookup]
    · have hne : (key == kv.1) = false := by
        simp [Ne.symm h]
      simp [dict_set, h, List.lookup, hne, ih]

/-- Claim C1 counterexample: a `NotAuthenticatedError` raised by an
invoked operation is not swallowed by the dispatcher — it propagates
out of `handle_event` (the claim says it is swallowed
unconditionally). -/
theorem C1_counterexample :
    handle_event [("waiting", [[CfgVal.str "pause"]])]
      (fun _ => some PyExc.NotAuthenticatedError) "waiting" =
      ([], some PyExc.NotAuthenticatedError) := by
  rfl

/-- Claim C1 (amended): the dispatcher swallows `InvalidTokenError`
unconditionally and a `RequestFailedError` whose message is in the
handled set; any other `RequestFailedError` is logged as an unhandled
error but not raised, and dispatch continues to the next action after
every swallowed or logged outcome; but `NotAuthenticatedError` and
`TimeoutError` are not caught: they escape `try_spotify_function`,
abort the remaining actions and propagate out of dispatch. -/
theorem C1_dispatch_error_policy (handled : List String) (msg : String)
    (outcomes : Nat → Option PyExc) (name : String) (args : List CfgVal)
    (rest : List Action) (i : Nat) :
    (try_spotify_function none handled = ([], none)) ∧
    (try_spotify_function (some PyExc.InvalidTokenError) handled = ([], none)) ∧
    (msg ∈ handled →
      try_spotify_function (some (PyExc.RequestFailedError msg)) handled = ([], none)) ∧
    (msg ∉ handled →
      try_spotify_function (some (PyExc.RequestFailedError msg)) handled =
        (["Spotify: An unhandled error has been raised"], none)) ∧
    (try_spotify_function (some PyExc.NotAuthenticatedError) handled =
      ([], some PyExc.NotAuthenticatedError)) ∧
    (try_spotify_function (some PyExc.TimeoutError) handled =
      ([], some PyExc.TimeoutError)) ∧
    (∀ handled2, CFG_MAP_handled_errors name = some handled2 →
      (∀ logs, try_spotify_function (outcomes i) handled2 = (logs, none) →
        handle_actions outcomes ((CfgVal.str name :: args) :: rest) i =
          (logs ++ (handle_actions outcomes rest (i + 1)).1,
           (handle_actions outcomes rest (i + 1)).2)) ∧
      (∀ logs e, e ≠ PyExc.ValueError →
        try_spotify_function (outcomes i) handled2 = (logs, some e) →
        handle_actions outcomes ((CfgVal.str name :: args) :: rest) i = (logs, some e))) := by
  refine ⟨rfl, rfl, ?_, ?_, rfl, rfl, ?_⟩
  · intro hm; simp [try_spotify_function, hm]
  · intro hm; simp [try_spotify_function, hm]
  · intro handled2 hmap
    constructor
    · intro logs htry
      simp only [handle_actions, hmap]
      rw [htry]
    · intro logs e hne htry
      cases e <;> first
        | exact absurd rfl hne
        | (simp only [handle_actions, hmap]; rw [htry])

/-- Witness for C1 (amended): the handled message of pause is
swallowed; an unhandled `TimeoutError` outcome aborts dispatch of a
concrete action list. -/
theorem C1_dispatch_error_policy_witness :
    ("Unable to pause" ∈ ["Unable to pause"]) ∧
    try_spotify_function (some (PyExc.RequestFailedError "Unable to pause"))
      ["Unable to pause"] = ([], none) ∧
    handle_actions (fun _ => some PyExc.TimeoutError) [[CfgVal.str "play"]] 0 =
      ([], some PyExc.TimeoutError) :=
  ⟨by simp,
   (C1_dispatch_error_policy ["Unable to pause"] "Unable to pause"
     (fun _ => some PyExc.TimeoutError) "play" [] [] 0).2.2.1 (by simp),
   ((C1_dispatch_error_policy ["Unable to pause"] "Unable to pause"
     (fun _ => some PyExc.TimeoutError) "play" [] [] 0).2.2.2.2.2.2
     ["Unable to play"] rfl).2 [] PyExc.TimeoutError (by decide) rfl⟩

/-- Claim C5 counterexample: under the built-in default configuration
(config file missing or malformed) the state name unknown has no
entry, so `dispatch(unknown)` raises `KeyError` instead of yielding no
actions. -/
theorem C5_counterexample :
    handle_event (load_config none) (fun _ => none) "unknown" =
      ([], some PyExc.KeyError) := by
  rfl

/-- Claim C5 (amended): when the configuration file loads successfully,
`load_config` maps the unknown state to an empty action list and
`dispatch(unknown)` performs nothing; but under the built-in default
configuration the unknown state is absent and `dispatch(unknown)`
raises `KeyError`, as does dispatch of any state name whose action
list is absent; an action whose name resolves to no known operation
raises `KeyError` (aborting dispatch) rather than being skipped
silently; only an empty action entry is skipped silently. -/
theorem C5_config_gap_behavior (cfg : Config) (outcomes : Nat → Option PyExc)
    (name : String) (args : List CfgVal) (rest : List Action) (i : Nat) :
    (handle_event (load_config (some cfg)) outcomes "unknown" = ([], none)) ∧
    ((load_config none).lookup "unknown" = none) ∧
    (cfg.lookup name = none → handle_event cfg outcomes name = ([], some PyExc.KeyError)) ∧
    (CFG_MAP_handled_errors name = none →
      handle_actions outcomes ((CfgVal.str name :: args) :: rest) i =
        ([], some PyExc.KeyError)) ∧
    (handle_actions outcomes ([] :: rest) i = handle_actions outcomes rest i) := by
  refine ⟨?_, rfl, ?_, ?_, rfl⟩
  · simp [handle_event, load_config, lookup_dict_set, handle_actions]
  · intro h; simp [handle_event, h]
  · intro h; simp only [handle_actions, h]

/-- Witness for C5 (amended) at concrete configurations: a parsed
config dispatches unknown to nothing; the default config and a missing
state name raise `KeyError`; an unknown action name raises
`KeyError`. -/
theorem C5_config_gap_behavior_witness :
    handle_event (load_config (some [("waiting", [[CfgVal.str "pause"]])])) (fun _ => none)
      "unknown" = ([], none) ∧
    CONFIG_default.lookup "unknown" = none ∧
    handle_event CONFIG_default (fun _ => none) "no_such_state" = ([], some PyExc.KeyError) ∧
    handle_actions (fun _ => none) [[CfgVal.str "frobnicate"]] 0 =
      ([], some PyExc.KeyError) :=
  ⟨(C5_config_gap_behavior [("waiting", [[CfgVal.str "pause"]])] (fun _ => none)
      "x" [] [] 0).1,
   rfl,
   (C5_config_gap_behavior CONFIG_default (fun _ => none) "no_such_state" [] [] 0).2.2.1 rfl,
   (C5_config_gap_behavior [] (fun _ => none) "frobnicate" [] [] 0).2.2.2.1 rfl⟩

end OverwatchSpotify
